import Mathlib

/-!
Verification of the reference-search engine in
`crates/ra_ide/src/references.rs`.

The external collaborators (the semantic database `Semantics`, the
classifiers `classify_name` / `classify_name_ref`, the usage-search
engine `Definition::find_usages`, and navigation-target resolution
`try_to_nav`) are modelled as function-valued fields of an `Env`
structure; the functions of the module itself are translated
line-by-line from the source.
-/

namespace RA

/-- A text range, `ra_syntax::TextRange` (start and end offsets). -/
structure TextRange where
  start : Nat
  stop : Nat
deriving DecidableEq, Repr

/-- An `ast::Name` syntax node (a binder node), identified by its node
identity and carrying its `text_range()`. -/
structure Name where
  id : Nat
  range : TextRange
deriving DecidableEq, Repr

/-- An `ast::NameRef` syntax node (a usage node). -/
structure NameRef where
  id : Nat
  range : TextRange
deriving DecidableEq, Repr

/-- The syntactic kind of an ancestor node, as far as
`get_struct_def_name_for_struct_literal_search` distinguishes them:
`ast::StructDef::cast` succeeds exactly on `StructDef` nodes. -/
inductive NodeKind
  | StructDef
  | EnumDef
  | UnionDef
  | TraitDef
  | OtherNode
deriving DecidableEq, Repr

/-- An ancestor syntax node: its kind, and — when it is a struct
definition — the result of `NameOwner::name()` on it. -/
structure Node where
  kind : NodeKind
  structName : Option Name
deriving DecidableEq, Repr

/-- Token kinds distinguished by the disambiguator:
`SyntaxKind::L_CURLY`, `SyntaxKind::L_PAREN`, anything else. -/
inductive TokenKind
  | L_CURLY
  | L_PAREN
  | OtherToken
deriving DecidableEq, Repr

/-- A syntax token: kind, `text_range()`, and its `ancestors()` chain. -/
structure Token where
  kind : TokenKind
  range : TextRange
  ancestors : List Node
deriving DecidableEq, Repr

/-- `ra_syntax::TokenAtOffset`: the tokens at a text offset. -/
inductive TokenAtOffset
  | NoToken
  | Single (t : Token)
  | Between (left : Token) (right : Token)
deriving DecidableEq, Repr

/-- An `ast::Expr` node (only its presence matters to this module). -/
structure Expr where
  id : Nat
deriving DecidableEq, Repr

/-- An `ast::Pat`: either a bind pattern (with or without a `mut`
token) or any other pattern shape. -/
inductive Pat
  | BindPat (hasMutToken : Bool)
  | OtherPat
deriving DecidableEq, Repr

/-- An `ast::LetStmt`: its optional initializer expression and its
optional pattern. -/
structure LetStmt where
  initializerExpr : Option Expr
  pat : Option Pat
deriving DecidableEq, Repr

/-- `ra_ide_db::defs::Definition`: the canonical semantic identity of a
declared entity. -/
inductive Definition
  | MacroDef (id : Nat)
  | Field (id : Nat)
  | ModuleDef (id : Nat)
  | SelfType (id : Nat)
  | Local (id : Nat)
  | TypeParam (id : Nat)
deriving DecidableEq, Repr

/-- `ReferenceKind`: `StructLiteral` or `Other`. -/
inductive ReferenceKind
  | StructLiteral
  | Other
deriving DecidableEq, Repr

/-- `ReferenceAccess`: `Read` or `Write`. -/
inductive ReferenceAccess
  | Read
  | Write
deriving DecidableEq, Repr

/-- A `FileRange`: file identity plus text range. -/
structure FileRange where
  file_id : Nat
  range : TextRange
deriving DecidableEq, Repr

/-- A `Reference`: one classified occurrence found by the search engine. -/
structure Reference where
  file_range : FileRange
  kind : ReferenceKind
  access : Option ReferenceAccess
deriving DecidableEq, Repr

/-- A `NavigationTarget`, exposing `file_id()` and `range()`. -/
structure NavigationTarget where
  file_id : Nat
  range : TextRange
deriving DecidableEq, Repr

/-- A `Declaration`: navigation target, kind and access of the binder. -/
structure Declaration where
  nav : NavigationTarget
  kind : ReferenceKind
  access : Option ReferenceAccess
deriving DecidableEq, Repr

/-- A `ReferenceSearchResult`: the declaration plus the usage references. -/
structure ReferenceSearchResult where
  declaration : Declaration
  references : List Reference
deriving DecidableEq, Repr

/-- A `SearchScope`: a restriction of the search to a set of files
(treated as an opaque filter parameter here). -/
structure SearchScope where
  files : List Nat
deriving DecidableEq, Repr

/-- `RangeInfo<T>`: a payload together with the matched name range. -/
structure RangeInfo (α : Type) where
  range : TextRange
  info : α
deriving DecidableEq, Repr

/-- The external collaborators seen by `references.rs`, per query
snapshot: token lookup, node-at-offset lookups (with descend through
expansions), ancestor chains, the two classifiers, let-statement
lookup, the usage-search engine, and navigation-target resolution. -/
structure Env where
  token_at_offset : Nat → TokenAtOffset
  find_name_at : Nat → Option Name
  find_name_ref_at : Nat → Option NameRef
  type_param_list_at : Nat → Bool
  name_ancestors : Name → List Node
  classify_name : Name → Option Definition
  classify_name_ref : NameRef → Option Definition
  find_let_stmt_at : Nat → Option LetStmt
  find_usages : Definition → Option SearchScope → List Reference
  try_to_nav : Definition → Option NavigationTarget

/-- `ReferenceSearchResult::len`: total number of references, at least 1
since all valid references have a declaration. -/
def ReferenceSearchResult.len (s : ReferenceSearchResult) : Nat :=
  s.references.length + 1

/-- The `Reference` synthesized for the declaration by
`ReferenceSearchResult::into_iter`. -/
def Declaration.toReference (d : Declaration) : Reference :=
  { file_range := { file_id := d.nav.file_id, range := d.nav.range }
    kind := d.kind
    access := d.access }

/-- `impl IntoIterator for ReferenceSearchResult`: first the synthesized
declaration reference, then the stored references in order. -/
def ReferenceSearchResult.into_iter (s : ReferenceSearchResult) : List Reference :=
  s.declaration.toReference :: s.references

/-- `name.syntax().ancestors().find_map(ast::StructDef::cast).and_then(|l| l.name())`:
the declared name of the first struct-definition ancestor, if any. -/
def structDefName (ancestors : List Node) : Option Name :=
  (ancestors.find? (fun n => n.kind == NodeKind.StructDef)).bind
    (fun n => n.structName)

/-- `get_struct_def_name_for_struct_literal_search`, translated from the
source: the offset must fall strictly between two tokens, the right
token must be `{` or `(`, and the left token's position must yield a
`Name` node (or, failing that, a `TypeParamList` node) whose struct-
definition ancestor supplies the name. -/
def get_struct_def_name_for_struct_literal_search
    (env : Env) (offset : Nat) : Option Name :=
  match env.token_at_offset offset with
  | TokenAtOffset.Between left right =>
    if right.kind ≠ TokenKind.L_CURLY ∧ right.kind ≠ TokenKind.L_PAREN then
      none
    else
      match env.find_name_at left.range.start with
      | some name => structDefName (env.name_ancestors name)
      | none =>
        if env.type_param_list_at left.range.start then
          structDefName left.ancestors
        else
          none
  | _ => none

/-- `find_name`, translated from the source: if a `Name` candidate was
supplied, classify it (failure fails the whole resolution); otherwise
look for a `NameRef` at the offset and classify that. -/
def find_name (env : Env) (offset : Nat) (opt_name : Option Name) :
    Option (RangeInfo Definition) :=
  match opt_name with
  | some name =>
    match env.classify_name name with
    | some d => some ⟨name.range, d⟩
    | none => none
  | none =>
    match env.find_name_ref_at offset with
    | some name_ref =>
      match env.classify_name_ref name_ref with
      | some d => some ⟨name_ref.range, d⟩
      | none => none
    | none => none

/-- `decl_access`, translated from the source: only `Local` and `Field`
definitions can carry access; find the `LetStmt` at the declaration
range's start; `Write` exactly when it has an initializer and a `mut`
bind pattern. -/
def decl_access (d : Definition) (env : Env) (range : TextRange) :
    Option ReferenceAccess :=
  match d with
  | Definition.Local _ | Definition.Field _ =>
    match env.find_let_stmt_at range.start with
    | none => none
    | some stmt =>
      if stmt.initializerExpr.isSome then
        match stmt.pat with
        | none => none
        | some (Pat.BindPat hasMut) =>
          if hasMut then some ReferenceAccess.Write else none
        | some Pat.OtherPat => none
      else
        none
  | _ => none

/-- The `(opt_name, search_kind)` pair computed at the top of
`find_all_refs`: the struct-literal disambiguator takes precedence with
kind `StructLiteral`; otherwise the generic `Name` lookup at the offset
with kind `Other`. -/
def opt_name_and_kind (env : Env) (offset : Nat) :
    Option Name × ReferenceKind :=
  match get_struct_def_name_for_struct_literal_search env offset with
  | some name => (some name, ReferenceKind.StructLiteral)
  | none => (env.find_name_at offset, ReferenceKind.Other)

/-- `find_all_refs`, translated from the source: disambiguate, resolve
the name to a `Definition`, search usages, filter by the requested kind,
resolve the navigation target (the source calls `try_to_nav` twice),
classify the declaration's access, and assemble the result. -/
def find_all_refs (env : Env) (offset : Nat)
    (search_scope : Option SearchScope) :
    Option (RangeInfo ReferenceSearchResult) :=
  let ok := opt_name_and_kind env offset
  match find_name env offset ok.1 with
  | none => none
  | some ri =>
    let references := (env.find_usages ri.info search_scope).filter
      (fun r => ok.2 == ReferenceKind.Other || ok.2 == r.kind)
    match env.try_to_nav ri.info with
    | none => none
    | some nav1 =>
      let decl_range := nav1.range
      match env.try_to_nav ri.info with
      | none => none
      | some nav2 =>
        some ⟨ri.range,
          { declaration :=
              { nav := nav2
                kind := ReferenceKind.Other
                access := decl_access ri.info env decl_range }
            references := references }⟩

/-! ### Concrete environments used to exercise the definitions -/

/-- A sample local-binding name at offsets 0–1. -/
def egName : Name := ⟨0, ⟨0, 1⟩⟩

/-- A sample navigation target in file 7. -/
def egNav : NavigationTarget := ⟨7, ⟨0, 1⟩⟩

/-- A sample usage reference of kind `Other`. -/
def egRefOther : Reference := ⟨⟨7, ⟨10, 11⟩⟩, ReferenceKind.Other, none⟩

/-- A sample usage reference of kind `StructLiteral`. -/
def egRefSL : Reference := ⟨⟨7, ⟨20, 21⟩⟩, ReferenceKind.StructLiteral, none⟩

/-- A snapshot where the cursor finds a classifiable local binder via
the generic path (the disambiguator sees no token pair). -/
def egEnv : Env where
  token_at_offset := fun _ => TokenAtOffset.NoToken
  find_name_at := fun _ => some egName
  find_name_ref_at := fun _ => none
  type_param_list_at := fun _ => false
  name_ancestors := fun _ => []
  classify_name := fun _ => some (Definition.Local 0)
  classify_name_ref := fun _ => none
  find_let_stmt_at := fun _ => none
  find_usages := fun _ _ => [egRefOther, egRefSL]
  try_to_nav := fun _ => some egNav

/-- The declared name of a sample struct definition. -/
def egStructName : Name := ⟨1, ⟨5, 8⟩⟩

/-- A struct-definition ancestor node carrying its name. -/
def egStructNode : Node := ⟨NodeKind.StructDef, some egStructName⟩

/-- The token to the left of the cursor (the struct name token). -/
def egLeftTok : Token := ⟨TokenKind.OtherToken, ⟨5, 8⟩, [egStructNode]⟩

/-- The token to the right of the cursor (an opening brace). -/
def egRightTok : Token := ⟨TokenKind.L_CURLY, ⟨9, 10⟩, []⟩

/-- A snapshot where offset 9 lies between a struct name and `{`, so
the struct-literal disambiguator fires. -/
def egEnvSL : Env where
  token_at_offset := fun o =>
    if o = 9 then TokenAtOffset.Between egLeftTok egRightTok
    else TokenAtOffset.NoToken
  find_name_at := fun o => if o = 5 then some egStructName else none
  find_name_ref_at := fun _ => none
  type_param_list_at := fun _ => false
  name_ancestors := fun _ => [egStructNode]
  classify_name := fun _ => some (Definition.ModuleDef 3)
  classify_name_ref := fun _ => none
  find_let_stmt_at := fun _ => none
  find_usages := fun _ _ => [egRefOther, egRefSL]
  try_to_nav := fun _ => some egNav

/-! ### Shared characterization lemmas -/

/-- `find_all_refs` unfolded into its three stages (the two `try_to_nav`
calls of the source collapse, the function being pure). -/
theorem find_all_refs_eq (env : Env) (offset : Nat)
    (scope : Option SearchScope) :
    find_all_refs env offset scope =
      match find_name env offset (opt_name_and_kind env offset).1 with
      | none => none
      | some ri =>
        match env.try_to_nav ri.info with
        | none => none
        | some nav =>
          some ⟨ri.range,
            { declaration :=
                { nav := nav
                  kind := ReferenceKind.Other
                  access := decl_access ri.info env nav.range }
              references := (env.find_usages ri.info scope).filter
                (fun r =>
                  (opt_name_and_kind env offset).2 == ReferenceKind.Other ||
                  (opt_name_and_kind env offset).2 == r.kind) }⟩ := by
  cases h1 : find_name env offset (opt_name_and_kind env offset).1 with
  | none => simp [find_all_refs, h1]
  | some ri =>
    cases h2 : env.try_to_nav ri.info with
    | none => simp [find_all_refs, h1, h2]
    | some nav => simp [find_all_refs, h1, h2]

/-! ### Claim theorems -/

/-- C4: converting a `ReferenceSearchResult` into a flat sequence yields
as element 0 a `Reference` synthesized from the declaration's navigation
target's file and range together with its stored kind and access,
followed for every `i > 0` by element `i` equal to `references[i-1]`,
with no reordering and no deduplication. -/
theorem C4_into_iter (s : ReferenceSearchResult) :
    s.into_iter.length = s.references.length + 1 ∧
    s.into_iter[0]? = some
      { file_range := { file_id := s.declaration.nav.file_id
                        range := s.declaration.nav.range }
        kind := s.declaration.kind
        access := s.declaration.access } ∧
    ∀ i, 0 < i → s.into_iter[i]? = s.references[i - 1]? := by
  refine ⟨rfl, by simp [ReferenceSearchResult.into_iter, Declaration.toReference], ?_⟩
  intro i hi
  cases i with
  | zero => exact absurd hi (by simp)
  | succ j =>
    simp [ReferenceSearchResult.into_iter]

/-- Witness for C4 at a concrete result and index `i = 1`. -/
theorem C4_into_iter_witness :
    (0 : Nat) < 1 ∧
      (ReferenceSearchResult.into_iter
        ⟨⟨egNav, ReferenceKind.Other, none⟩, [egRefOther]⟩)[1]? =
      ([egRefOther] : List Reference)[1 - 1]? :=
  ⟨by decide,
   (C4_into_iter ⟨⟨egNav, ReferenceKind.Other, none⟩, [egRefOther]⟩).2.2
     1 (by decide)⟩

/-- C8: the total-count accessor `len` equals the number of stored usage
references plus one (the implicit declaration), hence every successful
query's total count is at least 1. -/
theorem C8_len (s : ReferenceSearchResult) :
    s.len = s.references.length + 1 ∧ 1 ≤ s.len ∧
    ∀ env offset scope r,
      find_all_refs env offset scope = some r → 1 ≤ r.info.len := by
  refine ⟨rfl, by simp [ReferenceSearchResult.len], ?_⟩
  intro env offset scope r _
  simp [ReferenceSearchResult.len]

/-- Witness for C8 at a concrete result and a concrete successful query. -/
theorem C8_len_witness :
    find_all_refs egEnv 0 none =
      some ⟨⟨0, 1⟩,
        { declaration := ⟨egNav, ReferenceKind.Other, none⟩
          references := [egRefOther, egRefSL] }⟩ ∧
    1 ≤ (RangeInfo.mk (α := ReferenceSearchResult) ⟨0, 1⟩
          { declaration := ⟨egNav, ReferenceKind.Other, none⟩
            references := [egRefOther, egRefSL] }).info.len :=
  ⟨by decide,
   (C8_len { declaration := ⟨egNav, ReferenceKind.Other, none⟩
             references := [egRefOther, egRefSL] }).2.2
     egEnv 0 none _ (by decide)⟩

/-- For a `Local` or `Field` definition, `decl_access` yields `Write`
exactly when the let statement at the declaration's start offset exists,
has an initializer, and binds through a mutable bind pattern. -/
theorem decl_access_LF_write_iff (env : Env) (range : TextRange)
    (d : Definition)
    (hd : (∃ i, d = Definition.Local i) ∨ (∃ i, d = Definition.Field i)) :
    (decl_access d env range = some ReferenceAccess.Write ↔
      ∃ stmt, env.find_let_stmt_at range.start = some stmt ∧
        stmt.initializerExpr.isSome = true ∧
        stmt.pat = some (Pat.BindPat true)) := by
  obtain ⟨i, rfl⟩ | ⟨i, rfl⟩ := hd <;>
  all_goals
    cases hs : env.find_let_stmt_at range.start with
    | none => simp [decl_access, hs]
    | some stmt =>
      obtain ⟨init, pat⟩ := stmt
      cases init with
      | none => simp [decl_access, hs]
      | some e =>
        cases pat with
        | none => simp [decl_access, hs]
        | some p =>
          cases p with
          | OtherPat => simp [decl_access, hs]
          | BindPat b => cases b <;> simp [decl_access, hs]

/-- `decl_access` never yields `Read`: its only outcomes are `Write`
and no access. -/
theorem decl_access_write_or_none (env : Env) (range : TextRange)
    (d : Definition) :
    decl_access d env range = some ReferenceAccess.Write ∨
      decl_access d env range = none := by
  cases d <;>
  first
  | exact Or.inr rfl
  | cases hs : env.find_let_stmt_at range.start with
    | none => exact Or.inr (by simp [decl_access, hs])
    | some stmt =>
      obtain ⟨init, pat⟩ := stmt
      cases init with
      | none => exact Or.inr (by simp [decl_access, hs])
      | some e =>
        cases pat with
        | none => exact Or.inr (by simp [decl_access, hs])
        | some p =>
          cases p with
          | OtherPat => exact Or.inr (by simp [decl_access, hs])
          | BindPat b =>
            cases b with
            | false => exact Or.inr (by simp [decl_access, hs])
            | true => exact Or.inl (by simp [decl_access, hs])

/-- C3: `decl_access` returns `Write` iff the definition is `Local` or
`Field`, the let statement at the declaration range's start exists with
an initializer, and its pattern is a mutable bind pattern; in every
other case it returns no access (in particular it never returns any
access value other than `Write`). -/
theorem C3_decl_access (env : Env) (d : Definition) (range : TextRange) :
    (decl_access d env range = some ReferenceAccess.Write ↔
      ((∃ i, d = Definition.Local i) ∨ (∃ i, d = Definition.Field i)) ∧
      ∃ stmt, env.find_let_stmt_at range.start = some stmt ∧
        stmt.initializerExpr.isSome = true ∧
        stmt.pat = some (Pat.BindPat true)) ∧
    ∀ a, decl_access d env range = some a → a = ReferenceAccess.Write := by
  constructor
  · constructor
    · intro h
      have hd : (∃ i, d = Definition.Local i) ∨
          (∃ i, d = Definition.Field i) := by
        cases d with
        | Local i => exact Or.inl ⟨i, rfl⟩
        | Field i => exact Or.inr ⟨i, rfl⟩
        | MacroDef i => exact absurd h (by simp [decl_access])
        | ModuleDef i => exact absurd h (by simp [decl_access])
        | SelfType i => exact absurd h (by simp [decl_access])
        | TypeParam i => exact absurd h (by simp [decl_access])
      exact ⟨hd, (decl_access_LF_write_iff env range d hd).mp h⟩
    · rintro ⟨hd, hstmt⟩
      exact (decl_access_LF_write_iff env range d hd).mpr hstmt
  · intro a ha
    rcases decl_access_write_or_none env range d with hw | hn
    · rw [hw] at ha
      exact (Option.some_inj.mp ha).symm
    · rw [hn] at ha
      exact absurd ha (by simp)

/-- A let statement `let mut x = e;`: initializer present, mutable bind
pattern. -/
def egLetMut : LetStmt := ⟨some ⟨0⟩, some (Pat.BindPat true)⟩

/-- A snapshot whose let-statement lookup finds `let mut x = e;`. -/
def egEnvLet : Env :=
  { egEnv with find_let_stmt_at := fun _ => some egLetMut }

/-- Witness for C3: on `let mut x = e;` a `Local` declaration is
classified as `Write`, by the backwards direction of the iff. -/
theorem C3_decl_access_witness :
    decl_access (Definition.Local 0) egEnvLet ⟨0, 1⟩ =
      some ReferenceAccess.Write :=
  (C3_decl_access egEnvLet (Definition.Local 0) ⟨0, 1⟩).1.mpr
    ⟨Or.inl ⟨0, rfl⟩, egLetMut, rfl, rfl, rfl⟩

/-- C6: in `find_name`, only the first matching candidate is used: a
supplied `Name` whose classification fails makes the whole resolution
return `none` with no `NameRef` fallback; the `Name` path's outcome is
independent of the `NameRef` machinery; and the `NameRef` path runs
exactly when no `Name` candidate was supplied. -/
theorem C6_find_name (env : Env) (offset : Nat) :
    (∀ name, env.classify_name name = none →
      find_name env offset (some name) = none) ∧
    (∀ env2 : Env, env2.classify_name = env.classify_name →
      ∀ name, find_name env2 offset (some name) =
        find_name env offset (some name)) ∧
    (∀ name_ref, env.find_name_ref_at offset = some name_ref →
      find_name env offset none =
        Option.map (fun d => RangeInfo.mk name_ref.range d)
          (env.classify_name_ref name_ref)) := by
  refine ⟨?_, ?_, ?_⟩
  · intro name h
    simp [find_name, h]
  · intro env2 he name
    simp [find_name, he]
  · intro name_ref h
    cases hc : env.classify_name_ref name_ref <;> simp [find_name, h, hc]

/-- A sample usage node. -/
def egNameRef : NameRef := ⟨2, ⟨30, 33⟩⟩

/-- A snapshot where the binder at the cursor fails classification while
a classifiable usage node sits at the same offset. -/
def egEnvNF : Env :=
  { egEnv with
    classify_name := fun _ => none
    find_name_ref_at := fun _ => some egNameRef
    classify_name_ref := fun _ => some (Definition.Local 5) }

/-- Witness for C6: with the binder unclassifiable, resolution of the
supplied `Name` fails outright, and with no `Name` supplied the
`NameRef` path is taken. -/
theorem C6_find_name_witness :
    find_name egEnvNF 0 (some egName) = none ∧
    find_name egEnvNF 0 none =
      Option.map (fun d => RangeInfo.mk egNameRef.range d)
        (egEnvNF.classify_name_ref egNameRef) :=
  ⟨(C6_find_name egEnvNF 0).1 egName rfl,
   (C6_find_name egEnvNF 0).2.2 egNameRef rfl⟩

/-- An ancestor chain with no struct-definition node yields no struct
name. -/
theorem structDefName_eq_none (l : List Node)
    (h : ∀ n ∈ l, n.kind ≠ NodeKind.StructDef) :
    structDefName l = none := by
  have hf : l.find? (fun n => n.kind == NodeKind.StructDef) = none :=
    List.find?_eq_none.mpr (fun n hn => by simp [h n hn])
  simp [structDefName, hf]

/-- C2: the struct-literal disambiguator yields a name only when the
offset lies strictly between two tokens with an opening brace or
parenthesis on the right; on success `find_all_refs` requests kind
`StructLiteral` with that name, and on failure it falls back to the
generic `Name` lookup at the offset with kind `Other`. -/
theorem C2_disambiguator (env : Env) (offset : Nat) :
    (∀ name,
      get_struct_def_name_for_struct_literal_search env offset = some name →
      (match env.token_at_offset offset with
       | TokenAtOffset.Between _ right =>
           right.kind = TokenKind.L_CURLY ∨ right.kind = TokenKind.L_PAREN
       | _ => False) ∧
      opt_name_and_kind env offset = (some name, ReferenceKind.StructLiteral)) ∧
    (get_struct_def_name_for_struct_literal_search env offset = none →
      opt_name_and_kind env offset =
        (env.find_name_at offset, ReferenceKind.Other)) := by
  constructor
  · intro name h
    refine ⟨?_, by simp [opt_name_and_kind, h]⟩
    cases ht : env.token_at_offset offset with
    | NoToken =>
      simp [get_struct_def_name_for_struct_literal_search, ht] at h
    | Single t =>
      simp [get_struct_def_name_for_struct_literal_search, ht] at h
    | Between left right =>
      show right.kind = TokenKind.L_CURLY ∨ right.kind = TokenKind.L_PAREN
      cases hc : right.kind with
      | L_CURLY => exact Or.inl rfl
      | L_PAREN => exact Or.inr rfl
      | OtherToken =>
        exfalso
        have hnone :
            get_struct_def_name_for_struct_literal_search env offset = none := by
          simp [get_struct_def_name_for_struct_literal_search, ht, hc]
        rw [hnone] at h
        exact absurd h (by simp)
  · intro h
    simp [opt_name_and_kind, h]

/-- Witness for C2 at a concrete snapshot where the cursor sits between
a struct name and `{`. -/
theorem C2_disambiguator_witness :
    (match egEnvSL.token_at_offset 9 with
     | TokenAtOffset.Between _ right =>
         right.kind = TokenKind.L_CURLY ∨ right.kind = TokenKind.L_PAREN
     | _ => False) ∧
    opt_name_and_kind egEnvSL 9 =
      (some egStructName, ReferenceKind.StructLiteral) :=
  (C2_disambiguator egEnvSL 9).1 egStructName (by decide)

/-- C9: the ancestor walk accepts only struct-definition nodes: when no
ancestor of the left token's `Name` (or of the left token itself, in
the type-parameter-list branch) is a struct definition, the
disambiguator yields nothing and `find_all_refs` falls through to the
generic path with kind `Other`. -/
theorem C9_struct_def_only (env : Env) (offset : Nat) (left right : Token)
    (htok : env.token_at_offset offset = TokenAtOffset.Between left right) :
    (∀ name, env.find_name_at left.range.start = some name →
      (∀ n ∈ env.name_ancestors name, n.kind ≠ NodeKind.StructDef) →
      get_struct_def_name_for_struct_literal_search env offset = none ∧
      opt_name_and_kind env offset =
        (env.find_name_at offset, ReferenceKind.Other)) ∧
    (env.find_name_at left.range.start = none →
      (∀ n ∈ left.ancestors, n.kind ≠ NodeKind.StructDef) →
      get_struct_def_name_for_struct_literal_search env offset = none ∧
      opt_name_and_kind env offset =
        (env.find_name_at offset, ReferenceKind.Other)) := by
  constructor
  · intro name hn hno
    have hmain :
        get_struct_def_name_for_struct_literal_search env offset = none := by
      by_cases hk : right.kind ≠ TokenKind.L_CURLY ∧
          right.kind ≠ TokenKind.L_PAREN
      · simp [get_struct_def_name_for_struct_literal_search, htok, hk]
      · simp [get_struct_def_name_for_struct_literal_search, htok, hk, hn,
          structDefName_eq_none _ hno]
    exact ⟨hmain, by simp [opt_name_and_kind, hmain]⟩
  · intro hn hno
    have hmain :
        get_struct_def_name_for_struct_literal_search env offset = none := by
      by_cases hk : right.kind ≠ TokenKind.L_CURLY ∧
          right.kind ≠ TokenKind.L_PAREN
      · simp [get_struct_def_name_for_struct_literal_search, htok, hk]
      · cases hp : env.type_param_list_at left.range.start <;>
          simp [get_struct_def_name_for_struct_literal_search, htok, hk, hn,
            hp, structDefName_eq_none _ hno]
    exact ⟨hmain, by simp [opt_name_and_kind, hmain]⟩

/-- An enum-definition ancestor node. -/
def egEnumNode : Node := ⟨NodeKind.EnumDef, none⟩

/-- The declared name of a sample enum definition. -/
def egEnumName : Name := ⟨3, ⟨5, 8⟩⟩

/-- The token of the enum's name, whose ancestors hold only the enum
definition. -/
def egLeftTokEnum : Token := ⟨TokenKind.OtherToken, ⟨5, 8⟩, [egEnumNode]⟩

/-- A snapshot where offset 9 lies between an enum name and `{`. -/
def egEnvEnum : Env :=
  { egEnv with
    token_at_offset := fun o =>
      if o = 9 then TokenAtOffset.Between egLeftTokEnum egRightTok
      else TokenAtOffset.NoToken
    find_name_at := fun o => if o = 5 then some egEnumName else some egName
    name_ancestors := fun _ => [egEnumNode] }

/-- Witness for C9: between an enum name and `{`, the disambiguator
yields nothing and resolution falls through to the generic path. -/
theorem C9_struct_def_only_witness :
    get_struct_def_name_for_struct_literal_search egEnvEnum 9 = none ∧
    opt_name_and_kind egEnvEnum 9 =
      (egEnvEnum.find_name_at 9, ReferenceKind.Other) :=
  (C9_struct_def_only egEnvEnum 9 egLeftTokEnum egRightTok (by decide)).1
    egEnumName (by decide) (by decide)

/-- C10: when the nearest struct-definition ancestor found by the walk
has no name node, the disambiguator yields nothing and `find_all_refs`
proceeds with the generic path at the original offset with kind
`Other`. -/
theorem C10_unnamed_struct (env : Env) (offset : Nat) (left right : Token)
    (htok : env.token_at_offset offset = TokenAtOffset.Between left right) :
    (∀ name node, env.find_name_at left.range.start = some name →
      (env.name_ancestors name).find?
        (fun n => n.kind == NodeKind.StructDef) = some node →
      node.structName = none →
      get_struct_def_name_for_struct_literal_search env offset = none ∧
      opt_name_and_kind env offset =
        (env.find_name_at offset, ReferenceKind.Other)) ∧
    (∀ node, env.find_name_at left.range.start = none →
      left.ancestors.find?
        (fun n => n.kind == NodeKind.StructDef) = some node →
      node.structName = none →
      get_struct_def_name_for_struct_literal_search env offset = none ∧
      opt_name_and_kind env offset =
        (env.find_name_at offset, ReferenceKind.Other)) := by
  constructor
  · intro name node hn hfind hnone
    have hmain :
        get_struct_def_name_for_struct_literal_search env offset = none := by
      by_cases hk : right.kind ≠ TokenKind.L_CURLY ∧
          right.kind ≠ TokenKind.L_PAREN
      · simp [get_struct_def_name_for_struct_literal_search, htok, hk]
      · simp [get_struct_def_name_for_struct_literal_search, htok, hk, hn,
          structDefName, hfind, hnone]
    exact ⟨hmain, by simp [opt_name_and_kind, hmain]⟩
  · intro node hn hfind hnone
    have hmain :
        get_struct_def_name_for_struct_literal_search env offset = none := by
      by_cases hk : right.kind ≠ TokenKind.L_CURLY ∧
          right.kind ≠ TokenKind.L_PAREN
      · simp [get_struct_def_name_for_struct_literal_search, htok, hk]
      · cases hp : env.type_param_list_at left.range.start <;>
          simp [get_struct_def_name_for_struct_literal_search, htok, hk, hn,
            hp, structDefName, hfind, hnone]
    exact ⟨hmain, by simp [opt_name_and_kind, hmain]⟩

/-- A struct-definition ancestor node with no name. -/
def egUnnamedStructNode : Node := ⟨NodeKind.StructDef, none⟩

/-- A snapshot where offset 9 lies between the (anonymous) struct's
name position and `{`, the nearest struct-definition ancestor carrying
no name. -/
def egEnvUnnamed : Env :=
  { egEnvEnum with name_ancestors := fun _ => [egUnnamedStructNode] }

/-- Witness for C10: with an unnamed struct-definition ancestor, the
disambiguator yields nothing and the generic path is taken. -/
theorem C10_unnamed_struct_witness :
    get_struct_def_name_for_struct_literal_search egEnvUnnamed 9 = none ∧
    opt_name_and_kind egEnvUnnamed 9 =
      (egEnvUnnamed.find_name_at 9, ReferenceKind.Other) :=
  (C10_unnamed_struct egEnvUnnamed 9 egLeftTokEnum egRightTok (by decide)).1
    egEnumName egUnnamedStructNode (by decide) (by decide) (by decide)

/-- C1: after the usage search returns, a reference is kept iff the
requested kind is `Other` (accept-all) or the reference's kind equals
the requested kind exactly; a `StructLiteral`-scoped query hence
returns only `StructLiteral` references, and an `Other`-scoped query
returns the search engine's output unchanged. -/
theorem C1_filter (env : Env) (offset : Nat) (scope : Option SearchScope)
    (range : TextRange) (d : Definition) (res : ReferenceSearchResult)
    (hn : find_name env offset (opt_name_and_kind env offset).1 =
      some ⟨range, d⟩)
    (h : find_all_refs env offset scope = some ⟨range, res⟩) :
    res.references = (env.find_usages d scope).filter
      (fun r => (opt_name_and_kind env offset).2 == ReferenceKind.Other ||
                (opt_name_and_kind env offset).2 == r.kind) ∧
    ((opt_name_and_kind env offset).2 = ReferenceKind.StructLiteral →
      ∀ r ∈ res.references, r.kind = ReferenceKind.StructLiteral) ∧
    ((opt_name_and_kind env offset).2 = ReferenceKind.Other →
      res.references = env.find_usages d scope) := by
  rw [find_all_refs_eq, hn] at h
  cases h2 : env.try_to_nav d with
  | none => simp [h2] at h
  | some nav =>
    simp only [h2] at h
    simp only [Option.some.injEq, RangeInfo.mk.injEq, true_and] at h
    subst h
    refine ⟨rfl, ?_, ?_⟩
    · intro hsl r hrmem
      rw [hsl] at hrmem
      have hp := (List.mem_filter.mp hrmem).2
      simp at hp
      exact hp.symm
    · intro ho
      rw [ho]
      simp

/-- The result of the struct-literal-scoped sample query. -/
def egResultSL : ReferenceSearchResult :=
  { declaration := ⟨egNav, ReferenceKind.Other, none⟩
    references := [egRefSL] }

/-- Witness for C1 at the struct-literal sample query: the `Other`-kind
usage is discarded and only the `StructLiteral` one remains. -/
theorem C1_filter_witness :
    egResultSL.references =
      (egEnvSL.find_usages (Definition.ModuleDef 3) none).filter
        (fun r =>
          (opt_name_and_kind egEnvSL 9).2 == ReferenceKind.Other ||
          (opt_name_and_kind egEnvSL 9).2 == r.kind) ∧
    ((opt_name_and_kind egEnvSL 9).2 = ReferenceKind.StructLiteral →
      ∀ r ∈ egResultSL.references, r.kind = ReferenceKind.StructLiteral) ∧
    ((opt_name_and_kind egEnvSL 9).2 = ReferenceKind.Other →
      egResultSL.references =
        egEnvSL.find_usages (Definition.ModuleDef 3) none) :=
  C1_filter egEnvSL 9 none ⟨5, 8⟩ (Definition.ModuleDef 3) egResultSL
    (by decide) (by decide)

/-- C5: every successful query's declaration has kind `Other` (even on
struct-literal-scoped queries), its navigation target comes from
`try_to_nav`, and its access is computed by `decl_access`. -/
theorem C5_declaration (env : Env) (offset : Nat) (scope : Option SearchScope)
    (range : TextRange) (d : Definition) (res : ReferenceSearchResult)
    (hn : find_name env offset (opt_name_and_kind env offset).1 =
      some ⟨range, d⟩)
    (h : find_all_refs env offset scope = some ⟨range, res⟩) :
    res.declaration.kind = ReferenceKind.Other ∧
    env.try_to_nav d = some res.declaration.nav ∧
    res.declaration.access =
      decl_access d env res.declaration.nav.range := by
  rw [find_all_refs_eq, hn] at h
  cases h2 : env.try_to_nav d with
  | none => simp [h2] at h
  | some nav =>
    simp only [h2] at h
    simp only [Option.some.injEq, RangeInfo.mk.injEq, true_and] at h
    subst h
    exact ⟨rfl, rfl, rfl⟩

/-- Witness for C5 at the struct-literal sample query: the declaration
is still tagged `Other` and its access comes from `decl_access`. -/
theorem C5_declaration_witness :
    egResultSL.declaration.kind = ReferenceKind.Other ∧
    egEnvSL.try_to_nav (Definition.ModuleDef 3) =
      some egResultSL.declaration.nav ∧
    egResultSL.declaration.access =
      decl_access (Definition.ModuleDef 3) egEnvSL
        egResultSL.declaration.nav.range :=
  C5_declaration egEnvSL 9 none ⟨5, 8⟩ (Definition.ModuleDef 3) egResultSL
    (by decide) (by decide)

/-- C7: `find_all_refs` succeeds iff name resolution, classification and
navigation-target resolution all succeed; any such failure yields `none`
rather than an error value, and the kind filter can never cause failure
— with the earlier steps succeeding the query succeeds whatever the
filtered list (possibly empty) is. -/
theorem C7_success (env : Env) (offset : Nat) (scope : Option SearchScope) :
    ((find_all_refs env offset scope).isSome = true ↔
      ∃ range d,
        find_name env offset (opt_name_and_kind env offset).1 =
          some ⟨range, d⟩ ∧
        (env.try_to_nav d).isSome = true) ∧
    (∀ range d nav,
      find_name env offset (opt_name_and_kind env offset).1 =
        some ⟨range, d⟩ →
      env.try_to_nav d = some nav →
      find_all_refs env offset scope = some ⟨range,
        { declaration :=
            { nav := nav
              kind := ReferenceKind.Other
              access := decl_access d env nav.range }
          references := (env.find_usages d scope).filter
            (fun r =>
              (opt_name_and_kind env offset).2 == ReferenceKind.Other ||
              (opt_name_and_kind env offset).2 == r.kind) }⟩) := by
  constructor
  · rw [find_all_refs_eq]
    cases h1 : find_name env offset (opt_name_and_kind env offset).1 with
    | none => simp [h1]
    | some ri =>
      obtain ⟨rr, dd⟩ := ri
      cases h2 : env.try_to_nav dd with
      | none => simp [h1, h2]
      | some nav =>
        simp [h1, h2]
        exact ⟨rr, dd, ⟨rfl, rfl⟩, by rw [h2]; rfl⟩
  · intro range d nav hn hnav
    rw [find_all_refs_eq, hn]
    simp [hnav]

/-- Witness for C7: a concrete generic-path query succeeds with the
assembled declaration and filtered references. -/
theorem C7_success_witness :
    find_all_refs egEnv 0 none = some ⟨⟨0, 1⟩,
      { declaration :=
          { nav := egNav
            kind := ReferenceKind.Other
            access := decl_access (Definition.Local 0) egEnv egNav.range }
        references := (egEnv.find_usages (Definition.Local 0) none).filter
          (fun r =>
            (opt_name_and_kind egEnv 0).2 == ReferenceKind.Other ||
            (opt_name_and_kind egEnv 0).2 == r.kind) }⟩ :=
  (C7_success egEnv 0 none).2 ⟨0, 1⟩ (Definition.Local 0) egNav
    (by decide) (by decide)

end RA
